import Mathlib

/-!
Shallow embedding of the `system-monitor` repository
(`src/system_monitor.py`, `src/web_monitor.py`).

Numeric fields of the Python `SystemInfo` dataclass are modelled as `ℚ`
(the arithmetic in the claims is exact in binary floating point at the
relevant values, so rationals are a faithful model); OS-reported byte
counts are `Nat`.  The module-level constants `NVIDIA_AVAILABLE` and
`INTEL_GPU_AVAILABLE` (set once at import, lines 16-27) are modelled by
the record `Avail`.  Each fallible external call is modelled by an
explicit reading datatype whose constructors match the points at which
the Python code can raise, because the code's `try/except` granularity
is what the error-handling claims are about.
-/

namespace SystemMonitor

/-- The `SystemInfo` dataclass (system_monitor.py lines 29-50), with the
dataclass defaults as the initial value. -/
structure SystemInfo where
  cpu_name : String := ""
  cpu_cores : Nat := 0
  cpu_threads : Nat := 0
  cpu_usage : ℚ := 0
  cpu_freq : ℚ := 0
  ram_total : ℚ := 0
  ram_used : ℚ := 0
  ram_percent : ℚ := 0
  gpu_intel_name : String := ""
  gpu_intel_usage : ℚ := 0
  gpu_intel_mem_used : ℚ := 0
  gpu_nvidia_name : String := ""
  gpu_nvidia_usage : ℚ := 0
  gpu_nvidia_mem_used : ℚ := 0
  gpu_nvidia_mem_total : ℚ := 0
  gpu_nvidia_temp : ℚ := 0
  deriving Repr, DecidableEq

/-- The dataclass-default `SystemInfo()` built in `__init__` (line 54). -/
def initialSystemInfo : SystemInfo := {}

/-- The module-level availability constants, fixed once at import time
(system_monitor.py lines 16-27): `NVIDIA_AVAILABLE` is true iff
`import pynvml` succeeded, `INTEL_GPU_AVAILABLE` iff
`import intel_gpu_top` succeeded. -/
structure Avail where
  nvidia : Bool
  intel : Bool
  deriving Repr, DecidableEq

/-- Outcome of the `psutil.cpu_freq()` call inside the `try` of
`update_cpu_info` (lines 99-104): the call can raise (`err`, caught and
mapped to 0.0), return a falsy `None` (`none`, leaving the field
untouched), or return an object with a `current` frequency. -/
inductive CpuFreqReading where
  | err : CpuFreqReading
  | none : CpuFreqReading
  | val : ℚ → CpuFreqReading
  deriving Repr, DecidableEq

/-- Outcome of one cycle's NVIDIA query sequence in
`update_nvidia_gpu_info` (lines 138-161).  The constructors match the
possible exception points inside the outer `try`:
`failEarly` — `nvmlInit`/`nvmlDeviceGetHandleByIndex`/
`nvmlDeviceGetUtilizationRates` raised, so no field assignment ran;
`failMemory util` — utilization succeeded (usage assigned) but
`nvmlDeviceGetMemoryInfo` raised;
`ok util memUsedB memTotalB temp?` — utilization and memory succeeded
(`memUsedB`, `memTotalB` in bytes); `temp? = none` means the inner
`try` around `nvmlDeviceGetTemperature` caught an exception. -/
inductive NvidiaReading where
  | failEarly : NvidiaReading
  | failMemory : ℚ → NvidiaReading
  | ok : ℚ → Nat → Nat → Option ℚ → NvidiaReading
  deriving Repr, DecidableEq

/-- The external readings one call of `update_all` consumes.
`memTotalB`/`memUsedB` are `psutil.virtual_memory()`'s byte counts and
`memPercent` its `percent` field.  `intelFreq` is the sysfs
`gt_cur_freq_mhz` read of `update_intel_gpu_info` (lines 126-131):
`none` means the `open`/`int` raised (file absent, parse failure, ...),
`some f` the parsed integer. -/
structure Env where
  cpuPercent : ℚ
  cpuFreq : CpuFreqReading
  memTotalB : Nat
  memUsedB : Nat
  memPercent : ℚ
  intelFreq : Option Int
  nvidiaReading : NvidiaReading
  deriving Repr, DecidableEq

/-- `update_cpu_info` (lines 95-104): `cpu_usage` is assigned
unconditionally; `cpu_freq` is assigned the current frequency when the
call returns a truthy object, left unchanged on `None`, and set to 0.0
when the call raises. -/
def update_cpu_info (e : Env) (s : SystemInfo) : SystemInfo :=
  let s := { s with cpu_usage := e.cpuPercent }
  match e.cpuFreq with
  | .err => { s with cpu_freq := 0 }
  | .none => s
  | .val v => { s with cpu_freq := v }

/-- `update_ram_info` (lines 106-111): byte counts divided by `1024**3`,
percent passed through. -/
def update_ram_info (e : Env) (s : SystemInfo) : SystemInfo :=
  { s with
    ram_total := (e.memTotalB : ℚ) / 1024 ^ 3
    ram_used := (e.memUsedB : ℚ) / 1024 ^ 3
    ram_percent := e.memPercent }

/-- `update_intel_gpu_info` (lines 113-131).  With the library present
the stub assigns 0.0 to usage and mem_used (and its `try` body cannot
raise).  Without it, a successful sysfs read yields
`min (freq / 1000) 100`; any exception is caught and usage is set
to 0.0 (mem_used untouched on that path). -/
def update_intel_gpu_info (a : Avail) (e : Env) (s : SystemInfo) : SystemInfo :=
  if a.intel then
    { s with gpu_intel_usage := 0, gpu_intel_mem_used := 0 }
  else
    match e.intelFreq with
    | some f => { s with gpu_intel_usage := min ((f : ℚ) / 1000) 100 }
    | none => { s with gpu_intel_usage := 0 }

/-- `update_nvidia_gpu_info` (lines 133-161).  Returns the new state
paired with a `Bool` recording whether the cycle attempted to probe the
NVIDIA source (reached `nvmlInit`): the function returns immediately,
without probing, iff `NVIDIA_AVAILABLE` is false.  The outer `except`
swallows every exception, so the three failure shapes leave exactly the
fields assigned before the raise; a temperature-only failure assigns
0.0 via the inner `except`. -/
def update_nvidia_gpu_info (a : Avail) (e : Env) (s : SystemInfo) :
    SystemInfo × Bool :=
  if a.nvidia then
    match e.nvidiaReading with
    | .failEarly => (s, true)
    | .failMemory util => ({ s with gpu_nvidia_usage := util }, true)
    | .ok util memUsedB memTotalB temp? =>
        ({ s with
            gpu_nvidia_usage := util
            gpu_nvidia_mem_used := (memUsedB : ℚ) / 1024 ^ 3
            gpu_nvidia_mem_total := (memTotalB : ℚ) / 1024 ^ 3
            gpu_nvidia_temp := match temp? with | some t => t | none => 0 },
         true)
  else
    (s, false)

/-- `update_all` (lines 163-168): the four update methods run in order,
each mutating the shared `self.system_info` in place. -/
def update_all (a : Avail) (e : Env) (s : SystemInfo) : SystemInfo :=
  (update_nvidia_gpu_info a e
    (update_intel_gpu_info a e
      (update_ram_info e
        (update_cpu_info e s)))).1

/-- The successive values the shared `self.system_info` object passes
through during one `update_all` call, one entry per update method that
returned (the object is mutated in place, so a concurrent reader of
`monitor.system_info` can observe each of them). -/
def cycleStates (a : Avail) (e : Env) (s : SystemInfo) : List SystemInfo :=
  let s1 := update_cpu_info e s
  let s2 := update_ram_info e s1
  let s3 := update_intel_gpu_info a e s2
  let s4 := (update_nvidia_gpu_info a e s3).1
  [s1, s2, s3, s4]

/-- Folding `update_all` over a list of per-cycle readings, starting
from the construction-time snapshot: the background `update_loop` of
web_monitor.py (lines 14-18). -/
def runCycles (a : Avail) (s : SystemInfo) (es : List Env) : SystemInfo :=
  es.foldl (fun st e => update_all a e st) s

/-- Construction-time probe results consumed by `SystemMonitor.__init__`
(lines 53-93): the `/proc/cpuinfo` model-name parse (`none` = not found
or the `try` raised), the psutil core counts, the `lspci` Intel-name
parse, and the NVIDIA `nvmlDeviceGetName` probe (`none` = `nvmlInit` or
the handle query raised, e.g. no device present). -/
structure InitEnv where
  cpuName : Option String
  cpuCores : Nat
  cpuThreads : Nat
  intelName : Option String
  nvidiaName : Option String
  deriving Repr, DecidableEq

/-- `SystemMonitor.__init__` (lines 53-93): starts from the dataclass
defaults, fills the static identification fields from one-time probes;
a failed probe leaves the corresponding field at its default.  The
NVIDIA name probe runs only when `NVIDIA_AVAILABLE`. -/
def mkMonitor (a : Avail) (ie : InitEnv) : SystemInfo :=
  { initialSystemInfo with
    cpu_name := ie.cpuName.getD ""
    cpu_cores := ie.cpuCores
    cpu_threads := ie.cpuThreads
    gpu_intel_name := ie.intelName.getD ""
    gpu_nvidia_name := if a.nvidia then ie.nvidiaName.getD "" else "" }

/-- The `/data` handler `get_data` of web_monitor.py (lines 25-39): the
JSON object literal, as the ordered association list of field names and
numeric values read off `monitor.system_info`. -/
def get_data (s : SystemInfo) : List (String × ℚ) :=
  [("cpu_usage", s.cpu_usage),
   ("cpu_freq", s.cpu_freq),
   ("ram_used", s.ram_used),
   ("ram_total", s.ram_total),
   ("ram_percent", s.ram_percent),
   ("gpu_intel_usage", s.gpu_intel_usage),
   ("gpu_nvidia_usage", s.gpu_nvidia_usage),
   ("gpu_nvidia_mem_used", s.gpu_nvidia_mem_used),
   ("gpu_nvidia_mem_total", s.gpu_nvidia_mem_total),
   ("gpu_nvidia_temp", s.gpu_nvidia_temp)]

/-- Validity of one cycle's NVIDIA reading, as the vendor library
guarantees it: `utilization.gpu` is a percentage in [0,100] and the
reported used bytes never exceed the total. -/
def NvidiaReading.Valid : NvidiaReading → Prop
  | .failEarly => True
  | .failMemory util => 0 ≤ util ∧ util ≤ 100
  | .ok util memUsedB memTotalB _ => 0 ≤ util ∧ util ≤ 100 ∧ memUsedB ≤ memTotalB

instance : DecidablePred NvidiaReading.Valid := by
  intro r
  cases r <;> (unfold NvidiaReading.Valid; infer_instance)

/-- Validity of the sysfs Intel clock reading: a frequency in MHz is
nonnegative when readable. -/
def intelFreqValid : Option Int → Prop
  | some f => 0 ≤ f
  | none => True

instance : DecidablePred intelFreqValid := by
  intro o
  cases o <;> (unfold intelFreqValid; infer_instance)

/-- A valid provider fragment, in the spec's sense: the OS percentage
readings are in [0,100], used bytes never exceed total bytes, and the
sysfs GPU clock is nonnegative when readable. -/
def Env.Valid (e : Env) : Prop :=
  0 ≤ e.cpuPercent ∧ e.cpuPercent ≤ 100 ∧
  0 ≤ e.memPercent ∧ e.memPercent ≤ 100 ∧
  e.memUsedB ≤ e.memTotalB ∧
  intelFreqValid e.intelFreq ∧
  e.nvidiaReading.Valid

instance : DecidablePred Env.Valid := by
  intro e
  unfold Env.Valid
  infer_instance

/-- The spec's snapshot invariants: usedGB ≤ totalGB for memory and for
NVIDIA memory, and every usage-percent field in [0,100]. -/
def SnapshotInv (s : SystemInfo) : Prop :=
  s.ram_used ≤ s.ram_total ∧
  s.gpu_nvidia_mem_used ≤ s.gpu_nvidia_mem_total ∧
  0 ≤ s.cpu_usage ∧ s.cpu_usage ≤ 100 ∧
  0 ≤ s.ram_percent ∧ s.ram_percent ≤ 100 ∧
  0 ≤ s.gpu_intel_usage ∧ s.gpu_intel_usage ≤ 100 ∧
  0 ≤ s.gpu_nvidia_usage ∧ s.gpu_nvidia_usage ≤ 100

instance : DecidablePred SnapshotInv := by
  intro s
  unfold SnapshotInv
  exact instDecidableAnd

theorem SnapshotInv.initial : SnapshotInv initialSystemInfo := by
  unfold SnapshotInv initialSystemInfo
  norm_num

theorem SnapshotInv.mkMonitor (a : Avail) (ie : InitEnv) :
    SnapshotInv (SystemMonitor.mkMonitor a ie) := by
  unfold SnapshotInv SystemMonitor.mkMonitor initialSystemInfo
  norm_num

theorem SnapshotInv.step_cpu (e : Env) (s : SystemInfo)
    (h0 : 0 ≤ e.cpuPercent) (h1 : e.cpuPercent ≤ 100) (hs : SnapshotInv s) :
    SnapshotInv (update_cpu_info e s) := by
  obtain ⟨hmm, hnm, _, _, hrp0, hrp1, hiu0, hiu1, hnu0, hnu1⟩ := hs
  unfold update_cpu_info SnapshotInv
  cases e.cpuFreq <;>
    exact ⟨hmm, hnm, h0, h1, hrp0, hrp1, hiu0, hiu1, hnu0, hnu1⟩

theorem SnapshotInv.step_ram (e : Env) (s : SystemInfo)
    (h0 : 0 ≤ e.memPercent) (h1 : e.memPercent ≤ 100)
    (hub : e.memUsedB ≤ e.memTotalB) (hs : SnapshotInv s) :
    SnapshotInv (update_ram_info e s) := by
  obtain ⟨_, hnm, hcu0, hcu1, _, _, hiu0, hiu1, hnu0, hnu1⟩ := hs
  have hram : (e.memUsedB : ℚ) / 1024 ^ 3 ≤ (e.memTotalB : ℚ) / 1024 ^ 3 := by
    gcongr
  exact ⟨hram, hnm, hcu0, hcu1, h0, h1, hiu0, hiu1, hnu0, hnu1⟩

theorem SnapshotInv.step_intel (a : Avail) (e : Env) (s : SystemInfo)
    (hf : intelFreqValid e.intelFreq) (hs : SnapshotInv s) :
    SnapshotInv (update_intel_gpu_info a e s) := by
  obtain ⟨hmm, hnm, hcu0, hcu1, hrp0, hrp1, _, _, hnu0, hnu1⟩ := hs
  unfold update_intel_gpu_info SnapshotInv
  cases a.intel with
  | true =>
      exact ⟨hmm, hnm, hcu0, hcu1, hrp0, hrp1, by norm_num, by norm_num,
        hnu0, hnu1⟩
  | false =>
      cases hei : e.intelFreq with
      | none =>
          exact ⟨hmm, hnm, hcu0, hcu1, hrp0, hrp1, by norm_num, by norm_num,
            hnu0, hnu1⟩
      | some f =>
          rw [hei] at hf
          unfold intelFreqValid at hf
          refine ⟨hmm, hnm, hcu0, hcu1, hrp0, hrp1, ?_, ?_, hnu0, hnu1⟩
          · exact le_min (by positivity) (by norm_num)
          · exact min_le_right _ _

theorem SnapshotInv.step_nvidia (a : Avail) (e : Env) (s : SystemInfo)
    (hr : e.nvidiaReading.Valid) (hs : SnapshotInv s) :
    SnapshotInv (update_nvidia_gpu_info a e s).1 := by
  obtain ⟨hmm, hnm, hcu0, hcu1, hrp0, hrp1, hiu0, hiu1, hnu0, hnu1⟩ := hs
  unfold update_nvidia_gpu_info SnapshotInv
  cases a.nvidia with
  | false => exact ⟨hmm, hnm, hcu0, hcu1, hrp0, hrp1, hiu0, hiu1, hnu0, hnu1⟩
  | true =>
      cases hen : e.nvidiaReading with
      | failEarly =>
          exact ⟨hmm, hnm, hcu0, hcu1, hrp0, hrp1, hiu0, hiu1, hnu0, hnu1⟩
      | failMemory util =>
          rw [hen] at hr
          unfold NvidiaReading.Valid at hr
          exact ⟨hmm, hnm, hcu0, hcu1, hrp0, hrp1, hiu0, hiu1, hr.1, hr.2⟩
      | ok util memUsedB memTotalB temp? =>
          rw [hen] at hr
          unfold NvidiaReading.Valid at hr
          obtain ⟨h0, h1, hb⟩ := hr
          have hmem : (memUsedB : ℚ) / 1024 ^ 3 ≤ (memTotalB : ℚ) / 1024 ^ 3 := by
            gcongr
          exact ⟨hmm, hmem, hcu0, hcu1, hrp0, hrp1, hiu0, hiu1, h0, h1⟩

theorem SnapshotInv.step (a : Avail) (e : Env) (s : SystemInfo)
    (hs : SnapshotInv s) (he : e.Valid) : SnapshotInv (update_all a e s) := by
  obtain ⟨hc0, hc1, hp0, hp1, hub, hif, hnv⟩ := he
  exact SnapshotInv.step_nvidia a e _ hnv
    (SnapshotInv.step_intel a e _ hif
      (SnapshotInv.step_ram e _ hp0 hp1 hub
        (SnapshotInv.step_cpu e s hc0 hc1 hs)))

theorem SnapshotInv.run (a : Avail) (s : SystemInfo) (es : List Env)
    (hs : SnapshotInv s) (h : ∀ e ∈ es, e.Valid) :
    SnapshotInv (runCycles a s es) := by
  unfold runCycles
  induction es generalizing s with
  | nil => simpa using hs
  | cons e es ih =>
      rw [List.foldl_cons]
      exact ih _ (SnapshotInv.step a e s hs (h e (by simp)))
        (fun e' he' => h e' (by simp [he']))

/-- C1: For every snapshot produced by running any number of update
cycles with valid provider fragments, starting from the
construction-time state, usedGB never exceeds totalGB for system memory
and for NVIDIA GPU memory, and every usage-percent field (cpu_usage,
ram_percent, gpu_intel_usage, gpu_nvidia_usage) lies within [0,100]. -/
theorem snapshot_invariants_hold (a : Avail) (ie : InitEnv) (es : List Env)
    (h : ∀ e ∈ es, e.Valid) :
    SnapshotInv (runCycles a (mkMonitor a ie) es) :=
  SnapshotInv.run a _ es (SnapshotInv.mkMonitor a ie) h

/-- A concrete availability configuration: NVIDIA library importable,
Intel library not importable (the common laptop configuration). -/
def availW : Avail := ⟨true, false⟩

/-- Concrete construction-time probe results. -/
def initEnvW : InitEnv :=
  ⟨some "Intel(R) Core(TM) i7", 4, 8, some "Intel UHD Graphics", some "GeForce"⟩

/-- A concrete valid cycle reading: cpu 50%, 16 GB total / 8 GB used
memory at 50%, sysfs Intel clock unreadable, NVIDIA fully readable. -/
def envW : Env :=
  ⟨50, .val 2400, 16 * 1024 ^ 3, 8 * 1024 ^ 3, 50, none,
   .ok 30 (1024 ^ 3) (2 * 1024 ^ 3) (some 55)⟩

/-- Witness for `snapshot_invariants_hold` at a concrete run. -/
theorem snapshot_invariants_hold_witness :
    (∀ e ∈ [envW], e.Valid) ∧
      SnapshotInv (runCycles availW (mkMonitor availW initEnvW) [envW]) :=
  ⟨by decide, snapshot_invariants_hold availW initEnvW [envW] (by decide)⟩

theorem update_all_ram_fields (a : Avail) (e : Env) (s : SystemInfo) :
    (update_all a e s).ram_total = (e.memTotalB : ℚ) / 1024 ^ 3 ∧
    (update_all a e s).ram_used = (e.memUsedB : ℚ) / 1024 ^ 3 ∧
    (update_all a e s).ram_percent = e.memPercent := by
  cases hn : a.nvidia <;> cases hi : a.intel <;> cases hc : e.cpuFreq <;>
    cases hf : e.intelFreq <;> cases hr : e.nvidiaReading <;>
    simp [update_all, update_nvidia_gpu_info, update_intel_gpu_info,
      update_ram_info, update_cpu_info, hn, hi, hc, hf, hr]

/-- C8: in the snapshot produced by any update cycle, `ram_total` and
`ram_used` equal the OS-reported byte counts divided by `1024 ^ 3`. -/
theorem ram_gb_conversion (a : Avail) (e : Env) (s : SystemInfo) :
    (update_all a e s).ram_total = (e.memTotalB : ℚ) / 1024 ^ 3 ∧
    (update_all a e s).ram_used = (e.memUsedB : ℚ) / 1024 ^ 3 :=
  ⟨(update_all_ram_fields a e s).1, (update_all_ram_fields a e s).2.1⟩

/-- C9: no update cycle modifies the five static identification fields
probed at construction: `cpu_name`, `cpu_cores`, `cpu_threads`,
`gpu_intel_name`, `gpu_nvidia_name`. -/
theorem static_fields_never_updated (a : Avail) (e : Env) (s : SystemInfo) :
    (update_all a e s).cpu_name = s.cpu_name ∧
    (update_all a e s).cpu_cores = s.cpu_cores ∧
    (update_all a e s).cpu_threads = s.cpu_threads ∧
    (update_all a e s).gpu_intel_name = s.gpu_intel_name ∧
    (update_all a e s).gpu_nvidia_name = s.gpu_nvidia_name := by
  cases hn : a.nvidia <;> cases hi : a.intel <;> cases hc : e.cpuFreq <;>
    cases hf : e.intelFreq <;> cases hr : e.nvidiaReading <;>
    simp [update_all, update_nvidia_gpu_info, update_intel_gpu_info,
      update_ram_info, update_cpu_info, hn, hi, hc, hf, hr]

/-- C10: in an NVIDIA cycle where utilization and memory queries succeed
but the temperature query raises, the resulting snapshot carries that
cycle's utilization and memory values and `gpu_nvidia_temp = 0`. -/
theorem nvidia_temp_failure_zero (a : Avail) (e : Env) (s : SystemInfo)
    (u : ℚ) (mu mt : Nat) (ha : a.nvidia = true)
    (hr : e.nvidiaReading = .ok u mu mt Option.none) :
    (update_all a e s).gpu_nvidia_usage = u ∧
    (update_all a e s).gpu_nvidia_mem_used = (mu : ℚ) / 1024 ^ 3 ∧
    (update_all a e s).gpu_nvidia_mem_total = (mt : ℚ) / 1024 ^ 3 ∧
    (update_all a e s).gpu_nvidia_temp = 0 := by
  cases hi : a.intel <;> cases hc : e.cpuFreq <;> cases hf : e.intelFreq <;>
    simp [update_all, update_nvidia_gpu_info, update_intel_gpu_info,
      update_ram_info, update_cpu_info, ha, hi, hc, hf, hr]

/-- Witness for `nvidia_temp_failure_zero` at a concrete input. -/
theorem nvidia_temp_failure_zero_witness :
    let e : Env :=
      ⟨50, .val 2400, 16 * 1024 ^ 3, 8 * 1024 ^ 3, 50, none,
       .ok 30 (1024 ^ 3) (2 * 1024 ^ 3) Option.none⟩
    (update_all availW e initialSystemInfo).gpu_nvidia_usage = 30 ∧
    (update_all availW e initialSystemInfo).gpu_nvidia_mem_used =
      ((1024 ^ 3 : Nat) : ℚ) / 1024 ^ 3 ∧
    (update_all availW e initialSystemInfo).gpu_nvidia_mem_total =
      ((2 * 1024 ^ 3 : Nat) : ℚ) / 1024 ^ 3 ∧
    (update_all availW e initialSystemInfo).gpu_nvidia_temp = 0 :=
  nvidia_temp_failure_zero availW _ initialSystemInfo 30 (1024 ^ 3)
    (2 * 1024 ^ 3) (by decide) rfl

theorem update_all_cpu_usage (a : Avail) (e : Env) (s : SystemInfo) :
    (update_all a e s).cpu_usage = e.cpuPercent := by
  cases hn : a.nvidia <;> cases hi : a.intel <;> cases hc : e.cpuFreq <;>
    cases hf : e.intelFreq <;> cases hr : e.nvidiaReading <;>
    simp [update_all, update_nvidia_gpu_info, update_intel_gpu_info,
      update_ram_info, update_cpu_info, hn, hi, hc, hf, hr]

/-- C3: a failure raised inside either GPU provider's sampling call
leaves only that GPU's fields affected, and the cycle completes without
raising (`update_all` is a total function).  Unconditionally — so in
particular for every failing NVIDIA outcome (a raise before the
utilization assignment, at the memory query, or at the temperature
query) and for an Intel sysfs failure — the cycle's CPU and memory
fields are still updated; two cycles differing only in their NVIDIA
sampling outcome agree on every field except the four NVIDIA metric
fields; two cycles differing only in their Intel sysfs outcome agree on
every field except `gpu_intel_usage`; and an Intel sysfs failure (with
the Intel library absent) sets `gpu_intel_usage` to 0 for the cycle. -/
theorem gpu_failure_isolated (a : Avail) (e : Env) (s : SystemInfo) :
    (update_all a e s).cpu_usage = e.cpuPercent ∧
    (update_all a e s).ram_total = (e.memTotalB : ℚ) / 1024 ^ 3 ∧
    (update_all a e s).ram_used = (e.memUsedB : ℚ) / 1024 ^ 3 ∧
    (update_all a e s).ram_percent = e.memPercent ∧
    (∀ r' : NvidiaReading,
      update_all a e s =
        { update_all a { e with nvidiaReading := r' } s with
          gpu_nvidia_usage := (update_all a e s).gpu_nvidia_usage
          gpu_nvidia_mem_used := (update_all a e s).gpu_nvidia_mem_used
          gpu_nvidia_mem_total := (update_all a e s).gpu_nvidia_mem_total
          gpu_nvidia_temp := (update_all a e s).gpu_nvidia_temp }) ∧
    (∀ f' : Option Int,
      update_all a e s =
        { update_all a { e with intelFreq := f' } s with
          gpu_intel_usage := (update_all a e s).gpu_intel_usage }) ∧
    (a.intel = false → e.intelFreq = Option.none →
      (update_all a e s).gpu_intel_usage = 0) := by
  obtain ⟨ht, hu, hp⟩ := update_all_ram_fields a e s
  refine ⟨update_all_cpu_usage a e s, ht, hu, hp, ?_, ?_, ?_⟩
  · intro r'
    have key : ∀ t : SystemInfo,
        (update_nvidia_gpu_info a e t).1 =
          { (update_nvidia_gpu_info a { e with nvidiaReading := r' } t).1 with
            gpu_nvidia_usage := (update_nvidia_gpu_info a e t).1.gpu_nvidia_usage
            gpu_nvidia_mem_used :=
              (update_nvidia_gpu_info a e t).1.gpu_nvidia_mem_used
            gpu_nvidia_mem_total :=
              (update_nvidia_gpu_info a e t).1.gpu_nvidia_mem_total
            gpu_nvidia_temp :=
              (update_nvidia_gpu_info a e t).1.gpu_nvidia_temp } := by
      intro t
      cases hn : a.nvidia <;> cases hr : e.nvidiaReading <;> cases hr' : r' <;>
        simp [update_nvidia_gpu_info, hn, hr, hr']
    exact key _
  · intro f'
    have key : ∀ t : SystemInfo,
        (update_nvidia_gpu_info a e (update_intel_gpu_info a e t)).1 =
          { (update_nvidia_gpu_info a { e with intelFreq := f' }
              (update_intel_gpu_info a { e with intelFreq := f' } t)).1 with
            gpu_intel_usage :=
              (update_nvidia_gpu_info a e
                (update_intel_gpu_info a e t)).1.gpu_intel_usage } := by
      intro t
      cases hn : a.nvidia <;> cases hi : a.intel <;> cases hf : e.intelFreq <;>
        cases hf' : f' <;> cases hr : e.nvidiaReading <;>
        simp [update_nvidia_gpu_info, update_intel_gpu_info, hn, hi, hf,
          hf', hr]
    exact key _
  · intro hi hf
    have key : ∀ t : SystemInfo,
        ((update_nvidia_gpu_info a e
            (update_intel_gpu_info a e t)).1).gpu_intel_usage = 0 := by
      intro t
      cases hn : a.nvidia <;> cases hr : e.nvidiaReading <;>
        simp [update_nvidia_gpu_info, update_intel_gpu_info, hn, hi, hf, hr]
    exact key _

/-- A cycle in which both GPU providers fail: the Intel sysfs read
raises and the NVIDIA sample raises at `nvmlInit`. -/
def isoE : Env :=
  ⟨50, .val 2400, 16 * 1024 ^ 3, 8 * 1024 ^ 3, 50, none, .failEarly⟩

/-- Witness for `gpu_failure_isolated` at a concrete input with both
GPU providers failing in the cycle, the inner implications
discharged. -/
theorem gpu_failure_isolated_witness :
    (update_all availW isoE initialSystemInfo).cpu_usage = isoE.cpuPercent ∧
    (update_all availW isoE initialSystemInfo).ram_total =
      (isoE.memTotalB : ℚ) / 1024 ^ 3 ∧
    (update_all availW isoE initialSystemInfo).ram_used =
      (isoE.memUsedB : ℚ) / 1024 ^ 3 ∧
    (update_all availW isoE initialSystemInfo).ram_percent =
      isoE.memPercent ∧
    (∀ r' : NvidiaReading,
      update_all availW isoE initialSystemInfo =
        { update_all availW { isoE with nvidiaReading := r' }
            initialSystemInfo with
          gpu_nvidia_usage :=
            (update_all availW isoE initialSystemInfo).gpu_nvidia_usage
          gpu_nvidia_mem_used :=
            (update_all availW isoE initialSystemInfo).gpu_nvidia_mem_used
          gpu_nvidia_mem_total :=
            (update_all availW isoE initialSystemInfo).gpu_nvidia_mem_total
          gpu_nvidia_temp :=
            (update_all availW isoE initialSystemInfo).gpu_nvidia_temp }) ∧
    (∀ f' : Option Int,
      update_all availW isoE initialSystemInfo =
        { update_all availW { isoE with intelFreq := f' }
            initialSystemInfo with
          gpu_intel_usage :=
            (update_all availW isoE initialSystemInfo).gpu_intel_usage }) ∧
    (update_all availW isoE initialSystemInfo).gpu_intel_usage = 0 := by
  obtain ⟨h1, h2, h3, h4, h5, h6, h7⟩ :=
    gpu_failure_isolated availW isoE initialSystemInfo
  exact ⟨h1, h2, h3, h4, h5, h6, h7 rfl rfl⟩

/-- All five GPU metric fields of the JSON contract are zero. -/
def GpuZero (s : SystemInfo) : Prop :=
  s.gpu_intel_usage = 0 ∧ s.gpu_nvidia_usage = 0 ∧
  s.gpu_nvidia_mem_used = 0 ∧ s.gpu_nvidia_mem_total = 0 ∧
  s.gpu_nvidia_temp = 0

instance : DecidablePred GpuZero := by
  intro s
  unfold GpuZero
  infer_instance

theorem GpuZero.mkMonitor_zero (a : Avail) (ie : InitEnv) :
    GpuZero (SystemMonitor.mkMonitor a ie) :=
  ⟨rfl, rfl, rfl, rfl, rfl⟩

theorem GpuZero.step_zero (a : Avail) (e : Env) (s : SystemInfo)
    (hn : a.nvidia = false) (hi : a.intel = false)
    (hf : e.intelFreq = Option.none) (hs : GpuZero s) :
    GpuZero (update_all a e s) := by
  obtain ⟨h1, h2, h3, h4, h5⟩ := hs
  cases hc : e.cpuFreq <;>
    simp_all [GpuZero, update_all, update_nvidia_gpu_info,
      update_intel_gpu_info, update_ram_info, update_cpu_info]

theorem GpuZero.run_zero (a : Avail) (s : SystemInfo) (es : List Env)
    (hn : a.nvidia = false) (hi : a.intel = false)
    (hf : ∀ e ∈ es, e.intelFreq = Option.none) (hs : GpuZero s) :
    GpuZero (runCycles a s es) := by
  unfold runCycles
  induction es generalizing s with
  | nil => simpa using hs
  | cons e es ih =>
      rw [List.foldl_cons]
      exact ih _ (fun e' he' => hf e' (List.mem_cons_of_mem _ he'))
        (GpuZero.step_zero a e s hn hi (hf e (List.mem_cons_self _ _)) hs)

/-- C6: every `/data` response is the JSON object with exactly the ten
numeric fields, in the literal's order; and in a run where both GPU
sources are absent (neither vendor library importable, the Intel sysfs
file unreadable every cycle) all five GPU metric fields are reported
as 0. -/
theorem data_json_contract (a : Avail) (ie : InitEnv) (es : List Env)
    (hn : a.nvidia = false) (hi : a.intel = false)
    (hf : ∀ e ∈ es, e.intelFreq = Option.none) :
    ((get_data (runCycles a (mkMonitor a ie) es)).map Prod.fst =
      ["cpu_usage", "cpu_freq", "ram_used", "ram_total", "ram_percent",
       "gpu_intel_usage", "gpu_nvidia_usage", "gpu_nvidia_mem_used",
       "gpu_nvidia_mem_total", "gpu_nvidia_temp"]) ∧
    ("gpu_intel_usage", (0 : ℚ)) ∈ get_data (runCycles a (mkMonitor a ie) es) ∧
    ("gpu_nvidia_usage", (0 : ℚ)) ∈ get_data (runCycles a (mkMonitor a ie) es) ∧
    ("gpu_nvidia_mem_used", (0 : ℚ)) ∈ get_data (runCycles a (mkMonitor a ie) es) ∧
    ("gpu_nvidia_mem_total", (0 : ℚ)) ∈ get_data (runCycles a (mkMonitor a ie) es) ∧
    ("gpu_nvidia_temp", (0 : ℚ)) ∈ get_data (runCycles a (mkMonitor a ie) es) := by
  obtain ⟨h1, h2, h3, h4, h5⟩ :=
    GpuZero.run_zero a (mkMonitor a ie) es hn hi hf (GpuZero.mkMonitor_zero a ie)
  refine ⟨rfl, ?_, ?_, ?_, ?_, ?_⟩ <;> simp [get_data, h1, h2, h3, h4, h5]

/-- Witness for `data_json_contract` at a concrete run. -/
theorem data_json_contract_witness :
    let a : Avail := ⟨false, false⟩
    let e : Env :=
      ⟨50, .val 2400, 16 * 1024 ^ 3, 8 * 1024 ^ 3, 50, none, .failEarly⟩
    ((get_data (runCycles a (mkMonitor a initEnvW) [e])).map Prod.fst =
      ["cpu_usage", "cpu_freq", "ram_used", "ram_total", "ram_percent",
       "gpu_intel_usage", "gpu_nvidia_usage", "gpu_nvidia_mem_used",
       "gpu_nvidia_mem_total", "gpu_nvidia_temp"]) ∧
    ("gpu_intel_usage", (0 : ℚ)) ∈ get_data (runCycles ⟨false, false⟩ (mkMonitor ⟨false, false⟩ initEnvW) [e]) ∧
    ("gpu_nvidia_usage", (0 : ℚ)) ∈ get_data (runCycles ⟨false, false⟩ (mkMonitor ⟨false, false⟩ initEnvW) [e]) ∧
    ("gpu_nvidia_mem_used", (0 : ℚ)) ∈ get_data (runCycles ⟨false, false⟩ (mkMonitor ⟨false, false⟩ initEnvW) [e]) ∧
    ("gpu_nvidia_mem_total", (0 : ℚ)) ∈ get_data (runCycles ⟨false, false⟩ (mkMonitor ⟨false, false⟩ initEnvW) [e]) ∧
    ("gpu_nvidia_temp", (0 : ℚ)) ∈ get_data (runCycles ⟨false, false⟩ (mkMonitor ⟨false, false⟩ initEnvW) [e]) :=
  data_json_contract ⟨false, false⟩ initEnvW
    [⟨50, .val 2400, 16 * 1024 ^ 3, 8 * 1024 ^ 3, 50, none, .failEarly⟩]
    rfl rfl (by decide)

/-- Refutation of C2 as stated: a read of `monitor.system_info`
concurrent with an update CAN observe a half-updated snapshot.  Two
cycles with different readings are run; the state after `update_cpu_info`
of the second cycle is one of the in-place mutation states of that
cycle, it differs from both the first cycle's snapshot and the second
cycle's finished snapshot, and it mixes the second cycle's `cpu_usage`
with the first cycle's `ram_percent`. -/
def tornA : Avail := ⟨false, false⟩

/-- First cycle's readings: cpu 10%, memory 20%. -/
def tornE1 : Env := ⟨10, .none, 0, 0, 20, none, .failEarly⟩

/-- Second cycle's readings: cpu 30%, memory 40%. -/
def tornE2 : Env := ⟨30, .none, 0, 0, 40, none, .failEarly⟩

/-- The snapshot after the first cycle. -/
def tornS1 : SystemInfo := update_all tornA tornE1 initialSystemInfo

/-- The shared object's state mid-way through the second cycle, right
after `update_cpu_info` returned. -/
def tornMid : SystemInfo := update_cpu_info tornE2 tornS1

theorem torn_read_counterexample :
    tornMid ∈ cycleStates tornA tornE2 tornS1 ∧
    tornMid ≠ tornS1 ∧
    tornMid ≠ update_all tornA tornE2 tornS1 ∧
    tornMid.cpu_usage = (update_all tornA tornE2 tornS1).cpu_usage ∧
    tornMid.ram_percent = tornS1.ram_percent := by
  have hmid_cpu : tornMid.cpu_usage = 30 := by
    simp [tornMid, tornE2, update_cpu_info]
  have hmid_ram : tornMid.ram_percent = tornS1.ram_percent := by
    simp [tornMid, tornE2, update_cpu_info]
  have hs1_cpu : tornS1.cpu_usage = 10 := by
    simp [tornS1, tornA, tornE1, initialSystemInfo, update_all,
      update_nvidia_gpu_info, update_intel_gpu_info, update_ram_info,
      update_cpu_info]
  have hs1_ram : tornS1.ram_percent = 20 := by
    simp [tornS1, tornA, tornE1, initialSystemInfo, update_all,
      update_nvidia_gpu_info, update_intel_gpu_info, update_ram_info,
      update_cpu_info]
  have hfin_cpu : (update_all tornA tornE2 tornS1).cpu_usage = 30 := by
    simp [tornA, tornE2, update_all, update_nvidia_gpu_info,
      update_intel_gpu_info, update_ram_info, update_cpu_info]
  have hfin_ram : (update_all tornA tornE2 tornS1).ram_percent = 40 := by
    simp [tornA, tornE2, update_all, update_nvidia_gpu_info,
      update_intel_gpu_info, update_ram_info, update_cpu_info]
  refine ⟨?_, ?_, ?_, ?_, hmid_ram⟩
  · show tornMid ∈ [_, _, _, _]
    exact List.mem_cons_self _ _
  · intro h
    rw [h, hs1_cpu] at hmid_cpu
    norm_num at hmid_cpu
  · intro h
    rw [h, hfin_ram, hs1_ram] at hmid_ram
    norm_num at hmid_ram
  · rw [hmid_cpu, hfin_cpu]

/-- C2 amended: the snapshot is not swapped atomically — `update_all`
mutates the one shared `SystemInfo` object in place, method by method.
The state after `update_cpu_info` is one of the observable in-place
states of the cycle, it already carries the new cycle's `cpu_usage`
while still carrying the prior snapshot's RAM fields, and only the last
in-place state is the finished snapshot. -/
theorem update_mutates_in_place (a : Avail) (e : Env) (s : SystemInfo) :
    update_cpu_info e s ∈ cycleStates a e s ∧
    (update_cpu_info e s).cpu_usage = e.cpuPercent ∧
    (update_cpu_info e s).ram_used = s.ram_used ∧
    (update_cpu_info e s).ram_total = s.ram_total ∧
    (update_cpu_info e s).ram_percent = s.ram_percent ∧
    (cycleStates a e s).getLast? = some (update_all a e s) := by
  refine ⟨by simp [cycleStates], ?_, ?_, ?_, ?_, ?_⟩ <;>
    cases hc : e.cpuFreq <;>
    simp [update_cpu_info, cycleStates, update_all, hc]

/-- A snapshot left by a successful earlier NVIDIA cycle: nonzero
usage, memory and temperature values. -/
def staleS : SystemInfo :=
  { initialSystemInfo with
    gpu_nvidia_name := "GeForce"
    gpu_nvidia_usage := 77
    gpu_nvidia_mem_used := 2
    gpu_nvidia_mem_total := 4
    gpu_nvidia_temp := 55 }

/-- A cycle in which the NVIDIA sample fails transiently at
`nvmlInit`/handle/utilization. -/
def staleE : Env :=
  ⟨50, .val 2400, 16 * 1024 ^ 3, 8 * 1024 ^ 3, 50, none, .failEarly⟩

/-- Refutation of C4 as stated: with the NVIDIA library available, a
transient failure of the sampling call (before the utilization
assignment) leaves ALL the previous cycle's NVIDIA values in the new
snapshot — the outdated temperature 55 (and usage 77) are presented as
current instead of the claimed Unavailable/zero state. -/
theorem stale_nvidia_counterexample :
    (update_all availW staleE staleS).gpu_nvidia_temp = 55 ∧
    (update_all availW staleE staleS).gpu_nvidia_usage = 77 ∧
    (update_all availW staleE staleS).gpu_nvidia_temp ≠ 0 ∧
    (update_all availW staleE staleS).gpu_nvidia_usage ≠ 0 := by
  have h : (update_all availW staleE staleS).gpu_nvidia_temp = 55 ∧
      (update_all availW staleE staleS).gpu_nvidia_usage = 77 := by
    constructor <;>
      simp [availW, staleE, staleS, update_all, update_nvidia_gpu_info,
        update_intel_gpu_info, update_ram_info, update_cpu_info]
  refine ⟨h.1, h.2, ?_, ?_⟩
  · rw [h.1]
    norm_num
  · rw [h.2]
    norm_num

/-- C4 amended: the one-cycle failure policy holds only partially.  An
Intel sysfs failure does show usage 0 for that cycle, and an NVIDIA
temperature-only failure does show temperature 0; but an NVIDIA
sampling failure before the utilization assignment retains every
previous NVIDIA value, and a failure between the utilization and memory
assignments retains the previous memory values — stale data is
presented as current on those paths. -/
theorem transient_failure_semantics (a : Avail) (e : Env) (s : SystemInfo)
    (hi : a.intel = false) (hn : a.nvidia = true) :
    (e.intelFreq = Option.none → (update_all a e s).gpu_intel_usage = 0) ∧
    (∀ u mu mt, e.nvidiaReading = .ok u mu mt Option.none →
      (update_all a e s).gpu_nvidia_temp = 0) ∧
    (e.nvidiaReading = .failEarly →
      (update_all a e s).gpu_nvidia_usage = s.gpu_nvidia_usage ∧
      (update_all a e s).gpu_nvidia_mem_used = s.gpu_nvidia_mem_used ∧
      (update_all a e s).gpu_nvidia_mem_total = s.gpu_nvidia_mem_total ∧
      (update_all a e s).gpu_nvidia_temp = s.gpu_nvidia_temp) ∧
    (∀ u, e.nvidiaReading = .failMemory u →
      (update_all a e s).gpu_nvidia_usage = u ∧
      (update_all a e s).gpu_nvidia_mem_used = s.gpu_nvidia_mem_used ∧
      (update_all a e s).gpu_nvidia_mem_total = s.gpu_nvidia_mem_total ∧
      (update_all a e s).gpu_nvidia_temp = s.gpu_nvidia_temp) := by
  refine ⟨fun hf => ?_, fun u mu mt hr => ?_, fun hr => ?_, fun u hr => ?_⟩
  · cases hc : e.cpuFreq <;> cases hr : e.nvidiaReading <;>
      simp [update_all, update_nvidia_gpu_info, update_intel_gpu_info,
        update_ram_info, update_cpu_info, hi, hn, hc, hf, hr]
  · cases hc : e.cpuFreq <;> cases hf : e.intelFreq <;>
      simp [update_all, update_nvidia_gpu_info, update_intel_gpu_info,
        update_ram_info, update_cpu_info, hi, hn, hc, hf, hr]
  · cases hc : e.cpuFreq <;> cases hf : e.intelFreq <;>
      simp [update_all, update_nvidia_gpu_info, update_intel_gpu_info,
        update_ram_info, update_cpu_info, hi, hn, hc, hf, hr]
  · cases hc : e.cpuFreq <;> cases hf : e.intelFreq <;>
      simp [update_all, update_nvidia_gpu_info, update_intel_gpu_info,
        update_ram_info, update_cpu_info, hi, hn, hc, hf, hr]

/-- Witness for `transient_failure_semantics` at a concrete input. -/
theorem transient_failure_semantics_witness :
    ((⟨true, false⟩ : Avail).intel = false) ∧
    ((⟨true, false⟩ : Avail).nvidia = true) ∧
    ((staleE.intelFreq = Option.none →
        (update_all ⟨true, false⟩ staleE staleS).gpu_intel_usage = 0) ∧
      (∀ u mu mt, staleE.nvidiaReading = .ok u mu mt Option.none →
        (update_all ⟨true, false⟩ staleE staleS).gpu_nvidia_temp = 0) ∧
      (staleE.nvidiaReading = .failEarly →
        (update_all ⟨true, false⟩ staleE staleS).gpu_nvidia_usage =
          staleS.gpu_nvidia_usage ∧
        (update_all ⟨true, false⟩ staleE staleS).gpu_nvidia_mem_used =
          staleS.gpu_nvidia_mem_used ∧
        (update_all ⟨true, false⟩ staleE staleS).gpu_nvidia_mem_total =
          staleS.gpu_nvidia_mem_total ∧
        (update_all ⟨true, false⟩ staleE staleS).gpu_nvidia_temp =
          staleS.gpu_nvidia_temp) ∧
      (∀ u, staleE.nvidiaReading = .failMemory u →
        (update_all ⟨true, false⟩ staleE staleS).gpu_nvidia_usage = u ∧
        (update_all ⟨true, false⟩ staleE staleS).gpu_nvidia_mem_used =
          staleS.gpu_nvidia_mem_used ∧
        (update_all ⟨true, false⟩ staleE staleS).gpu_nvidia_mem_total =
          staleS.gpu_nvidia_mem_total ∧
        (update_all ⟨true, false⟩ staleE staleS).gpu_nvidia_temp =
          staleS.gpu_nvidia_temp)) :=
  ⟨rfl, rfl, transient_failure_semantics ⟨true, false⟩ staleE staleS rfl rfl⟩

/-- Construction-time probe results with the NVIDIA library importable
but the device probe failing (no device present): `nvmlInit` or the
handle query raised during `_init_gpu_info`, so the name stays empty. -/
def noDeviceInit : InitEnv := ⟨some "Intel(R) Core(TM) i7", 4, 8, none, none⟩

/-- Refutation of C5 as stated: with the library importable but no
device at construction (the name probe failed, so the source is
unavailable), a later cycle still attempts to probe the NVIDIA source
(reaches `nvmlInit`), because only the library import — not device
absence — is cached. -/
theorem nvidia_reprobe_counterexample :
    (mkMonitor availW noDeviceInit).gpu_nvidia_name = "" ∧
    (update_nvidia_gpu_info availW staleE (mkMonitor availW noDeviceInit)).2
      = true := by
  constructor
  · rfl
  · simp [availW, staleE, update_nvidia_gpu_info]

/-- C5 amended: only absence of the vendor LIBRARY is determined once
(at import) and cached; when the library is absent, no update cycle
probes the NVIDIA source and the snapshot is untouched.  Device absence
is not cached: with the library present every cycle re-attempts the
probe. -/
theorem nvidia_library_absence_cached (a : Avail) (e : Env) (s : SystemInfo)
    (h : a.nvidia = false) :
    update_nvidia_gpu_info a e s = (s, false) := by
  unfold update_nvidia_gpu_info
  rw [h]
  simp

/-- Witness for `nvidia_library_absence_cached` at a concrete input. -/
theorem nvidia_library_absence_cached_witness :
    ((⟨false, false⟩ : Avail).nvidia = false) ∧
    update_nvidia_gpu_info ⟨false, false⟩ staleE staleS = (staleS, false) :=
  ⟨rfl, nvidia_library_absence_cached ⟨false, false⟩ staleE staleS rfl⟩

/-- Neither vendor library importable. -/
def availNone : Avail := ⟨false, false⟩

/-- A cycle whose OS memory reading reports exactly 16 GB total and
8 GB used, but whose `percent` field — which psutil computes from
`available`, not from `used` — is 93.0. -/
def pctE : Env := ⟨0, .none, 16 * 1024 ^ 3, 8 * 1024 ^ 3, 93, none, .failEarly⟩

/-- Refutation of C7 as stated: the code never derives `ram_percent`
from used/total — it passes the OS `percent` field through.  With the
OS reporting total = 16 GB and used = 8 GB but percent = 93.0, `/data`
reports `ram_used` = 8.00 and `ram_total` = 16.00 yet
`ram_percent` = 93.0, which is not approximately 50.0. -/
theorem ram_percent_counterexample :
    ("ram_used", (8 : ℚ)) ∈ get_data (update_all availNone pctE initialSystemInfo) ∧
    ("ram_total", (16 : ℚ)) ∈ get_data (update_all availNone pctE initialSystemInfo) ∧
    ("ram_percent", (93 : ℚ)) ∈ get_data (update_all availNone pctE initialSystemInfo) ∧
    ¬ |(update_all availNone pctE initialSystemInfo).ram_percent - 50| ≤ 5 := by
  obtain ⟨ht, hu, hp⟩ := update_all_ram_fields availNone pctE initialSystemInfo
  rw [show ((pctE.memTotalB : ℚ) / 1024 ^ 3) = 16 by norm_num [pctE]] at ht
  rw [show ((pctE.memUsedB : ℚ) / 1024 ^ 3) = 8 by norm_num [pctE]] at hu
  rw [show pctE.memPercent = (93 : ℚ) from rfl] at hp
  refine ⟨?_, ?_, ?_, ?_⟩
  · simp [get_data, hu]
  · simp [get_data, ht]
  · simp [get_data, hp]
  · rw [hp, abs_le]
    intro h
    norm_num at h

/-- C7 amended: `ram_percent` is the OS-reported percent passed
through, not a value derived from used/total.  When the OS memory
reading reports total = 16 GB, used = 8 GB AND percent = 50.0, `/data`
reports `ram_used` = 8.00, `ram_total` = 16.00 and `ram_percent` =
50.0. -/
theorem ram_scenario_passthrough (a : Avail) (e : Env) (s : SystemInfo)
    (ht : e.memTotalB = 16 * 1024 ^ 3) (hu : e.memUsedB = 8 * 1024 ^ 3)
    (hp : e.memPercent = 50) :
    ("ram_used", (8 : ℚ)) ∈ get_data (update_all a e s) ∧
    ("ram_total", (16 : ℚ)) ∈ get_data (update_all a e s) ∧
    ("ram_percent", (50 : ℚ)) ∈ get_data (update_all a e s) ∧
    (update_all a e s).ram_percent = e.memPercent := by
  obtain ⟨ht', hu', hp'⟩ := update_all_ram_fields a e s
  rw [ht] at ht'
  rw [hu] at hu'
  rw [show ((16 * 1024 ^ 3 : Nat) : ℚ) / 1024 ^ 3 = 16 by norm_num] at ht'
  rw [show ((8 * 1024 ^ 3 : Nat) : ℚ) / 1024 ^ 3 = 8 by norm_num] at hu'
  exact ⟨by simp [get_data, hu'], by simp [get_data, ht'],
    by simp [get_data, hp', hp], hp'⟩

/-- The same reading with a consistent OS percent of 50.0. -/
def pct50E : Env := ⟨0, .none, 16 * 1024 ^ 3, 8 * 1024 ^ 3, 50, none, .failEarly⟩

/-- Witness for `ram_scenario_passthrough` at a concrete input. -/
theorem ram_scenario_passthrough_witness :
    (pct50E.memTotalB = 16 * 1024 ^ 3 ∧ pct50E.memUsedB = 8 * 1024 ^ 3 ∧
      pct50E.memPercent = 50) ∧
    (("ram_used", (8 : ℚ)) ∈ get_data (update_all availNone pct50E initialSystemInfo) ∧
      ("ram_total", (16 : ℚ)) ∈ get_data (update_all availNone pct50E initialSystemInfo) ∧
      ("ram_percent", (50 : ℚ)) ∈ get_data (update_all availNone pct50E initialSystemInfo) ∧
      (update_all availNone pct50E initialSystemInfo).ram_percent =
        pct50E.memPercent) :=
  ⟨⟨rfl, rfl, rfl⟩,
   ram_scenario_passthrough availNone pct50E initialSystemInfo rfl rfl rfl⟩

end SystemMonitor
